/-
Verification of the derivation layer and context serializer of the
conversation-crypto-dashboard repository.

Shallow embedding conventions:
- JSON numbers are modelled as rationals (ℚ); JSON cannot encode NaN, so
  number-typed fields in raw payloads are genuine rationals.
- Optional / possibly-null fields are modelled as `Option`.
- TypeScript strings that are only observed through `Number(s)` and `s === ''`
  (the exchange-quote strings) are modelled by `JsStr`, which records exactly
  those observations; `Number` applied to such a string can produce NaN, so
  runtime numbers in the exchange-pulse record are modelled by `JsNum`
  (a rational or NaN).
- The ambient clock read (`Math.floor(Date.now() / 1000)`) is modelled by an
  explicit `now` parameter holding the already-truncated seconds value.
-/
import Mathlib

namespace CryptoDashboard

/-- A JavaScript string observed only through emptiness and `Number` coercion:
`empty` is the empty string (with `Number '' = 0`), `num q` is a non-empty
string whose `Number` coercion is the rational `q`, and `nan` is a non-empty
string whose `Number` coercion is NaN. -/
inductive JsStr where
  | empty : JsStr
  | num : ℚ → JsStr
  | nan : JsStr
deriving DecidableEq

/-- A JavaScript runtime number: either a genuine rational or NaN. -/
inductive JsNum where
  | nan : JsNum
  | val : ℚ → JsNum
deriving DecidableEq

/-- JavaScript subtraction on runtime numbers; NaN propagates. -/
def JsNum.sub : JsNum → JsNum → JsNum
  | JsNum.val a, JsNum.val b => JsNum.val (a - b)
  | _, _ => JsNum.nan

/-- JavaScript `Math.abs`; NaN propagates. -/
def JsNum.abs : JsNum → JsNum
  | JsNum.val a => JsNum.val (if a < 0 then -a else a)
  | JsNum.nan => JsNum.nan

/-- JavaScript `x > q` comparison against a rational constant: any comparison
with NaN is false. -/
def JsNum.gtQ : JsNum → ℚ → Bool
  | JsNum.val a, q => decide (q < a)
  | JsNum.nan, _ => false

/-- JavaScript `Number` coercion of a `JsStr`. -/
def jsStrToNumber : JsStr → JsNum
  | JsStr.empty => JsNum.val 0
  | JsStr.num q => JsNum.val q
  | JsStr.nan => JsNum.nan

-- Input types (from lib/derived: permissive API response shapes).

/-- A `{ usd?: number }` box. -/
structure UsdVal where
  usd : Option ℚ
deriving DecidableEq

/-- A `{ btc?: number; eth?: number }` box. -/
structure PctVal where
  btc : Option ℚ
  eth : Option ℚ
deriving DecidableEq

/-- The five observable fields of a global snapshot, common to the enveloped
and the flat shape of `GlobalRaw`. -/
structure GlobalFields where
  total_market_cap : Option UsdVal
  total_volume : Option UsdVal
  market_cap_percentage : Option PctVal
  market_cap_change_percentage_24h_usd : Option ℚ
  updated_at : Option ℚ
deriving DecidableEq

/-- `GlobalRaw`: an optional `data` envelope plus the same fields flat at the
top level. -/
structure GlobalRaw where
  data : Option GlobalFields
  total_market_cap : Option UsdVal
  total_volume : Option UsdVal
  market_cap_percentage : Option PctVal
  market_cap_change_percentage_24h_usd : Option ℚ
  updated_at : Option ℚ
deriving DecidableEq

/-- The flat top-level fields of a `GlobalRaw`, viewed as a `GlobalFields`. -/
def GlobalRaw.flat (g : GlobalRaw) : GlobalFields :=
  { total_market_cap := g.total_market_cap
    total_volume := g.total_volume
    market_cap_percentage := g.market_cap_percentage
    market_cap_change_percentage_24h_usd := g.market_cap_change_percentage_24h_usd
    updated_at := g.updated_at }

/-- `data.data ?? data`: the envelope if present, else the flat shape. -/
def GlobalRaw.root (g : GlobalRaw) : GlobalFields :=
  g.data.getD g.flat

/-- `CoinMarketItem` from lib/derived. -/
structure CoinMarketItem where
  id : Option String
  symbol : Option String
  current_price : Option ℚ
  market_cap : Option ℚ
  total_volume : Option ℚ
  price_change_percentage_24h : Option ℚ
  price_change_percentage_7d_in_currency : Option ℚ
  price_change_percentage_30d_in_currency : Option ℚ
deriving DecidableEq

/-- `BitcoinChartRaw`: arrays of `[timestamp, value]` pairs. -/
structure BitcoinChartRaw where
  prices : Option (List (ℚ × ℚ))
  market_caps : Option (List (ℚ × ℚ))
  total_volumes : Option (List (ℚ × ℚ))
deriving DecidableEq

/-- One trending item: `coins[].item` with name, symbol, market_cap_rank. -/
structure TrendItem where
  name : Option String
  symbol : Option String
  market_cap_rank : Option ℚ
deriving DecidableEq

/-- One entry of the trending `coins` array. -/
structure TrendCoin where
  item : Option TrendItem
deriving DecidableEq

/-- `TrendingRaw` from the trending endpoint. -/
structure TrendingRaw where
  coins : Option (List TrendCoin)
deriving DecidableEq

/-- One category entry: `{ name, market_cap_change_24h }`. -/
structure CategoryItem where
  name : Option String
  market_cap_change_24h : Option ℚ
deriving DecidableEq

/-- Coinbase spot payload `data.amount` (a string). -/
structure CoinbaseData where
  amount : Option JsStr
  currency : Option String
deriving DecidableEq

/-- `CoinbaseSpotRaw`. -/
structure CoinbaseSpotRaw where
  data : Option CoinbaseData
deriving DecidableEq

/-- Kraken ticker `result.XXBTZUSD.c` (array of strings; `c[0]` is last trade). -/
structure KrakenPair where
  c : Option (List JsStr)
deriving DecidableEq

/-- Kraken ticker `result` box. -/
structure KrakenResult where
  XXBTZUSD : Option KrakenPair
deriving DecidableEq

/-- `KrakenTickerRaw`. -/
structure KrakenTickerRaw where
  result : Option KrakenResult
deriving DecidableEq

/-- Binance price payload: `{ symbol, price }` with `price` a string. -/
structure BinancePriceRaw where
  symbol : Option String
  price : Option JsStr
deriving DecidableEq

-- Output types.

/-- `ExchangePulseResult`. Fields are runtime JavaScript numbers, hence
`JsNum` (the `Number` coercion of a quote string can be NaN). -/
structure ExchangePulseResult where
  coinbasePrice : JsNum
  krakenPrice : JsNum
  binancePrice : Option JsNum
  priceDisparity : JsNum
  usExchangePremium : JsNum
  isVolatile : Bool
deriving DecidableEq

/-- The three-way Bitcoin trend classification. -/
inductive Trend where
  | golden_cross : Trend
  | death_cross : Trend
  | neutral : Trend
deriving DecidableEq

/-- The `fromGlobal` sub-record of `DerivedMetrics`. -/
structure FromGlobal where
  volumeRatio : Option ℚ
  btcDominancePercent : Option ℚ
  ethDominancePercent : Option ℚ
  marketMomentum24hPercent : Option ℚ
  updatedAt : Option ℚ
deriving DecidableEq

/-- The `fromBitcoinChart` sub-record of `DerivedMetrics`. -/
structure FromBitcoinChart where
  ma50 : Option ℚ
  ma200 : Option ℚ
  currentPrice : Option ℚ
  trend : Option Trend
deriving DecidableEq

/-- The `fromTopCoins` sub-record of `DerivedMetrics`. -/
structure FromTopCoins where
  marketBreadthAbove50Percent : Option ℚ
  avgPriceChange24hTop10 : Option ℚ
  avgPriceChange24hNext90 : Option ℚ
deriving DecidableEq

/-- A projected category entry in `topPerformingSectors`. -/
structure Sector where
  name : String
  change24h : ℚ
deriving DecidableEq

/-- The `fromDiscovery` sub-record of `DerivedMetrics`. -/
structure FromDiscovery where
  topTrendingCoins : List String
  topPerformingSectors : List Sector
  hypeVsMarketCapDivergence : Bool
  retailMoonshotPresence : Bool
deriving DecidableEq

/-- The full `DerivedMetrics` output record. -/
structure DerivedMetrics where
  fromGlobal : FromGlobal
  fromBitcoinChart : FromBitcoinChart
  fromTopCoins : FromTopCoins
  fromDiscovery : FromDiscovery
  fromExchangePulse : Option ExchangePulseResult
  computedAt : ℕ
deriving DecidableEq

-- Derivation engine (lib/derived).

/-- Models `x != null ? Number(x) : null` applied to an already-numeric
optional value: JavaScript `Number` on a number is the identity. -/
def jsNumberOfOpt (o : Option ℚ) : Option ℚ :=
  match o with
  | some c => some c
  | none => none

/-- The result record of `pickGlobal`. -/
structure PickedGlobal where
  totalMarketCapUsd : Option ℚ
  totalVolumeUsd : Option ℚ
  btcPercent : Option ℚ
  ethPercent : Option ℚ
  momentum24h : Option ℚ
  updatedAt : Option ℚ
deriving DecidableEq

/-- `pickGlobal` from lib/derived: select the envelope or the flat shape,
then read each field with a null default and coerce with `Number`. -/
def pickGlobal (data : GlobalRaw) : PickedGlobal :=
  let root := data.root
  let cap := root.total_market_cap.bind UsdVal.usd
  let vol := root.total_volume.bind UsdVal.usd
  let btc := root.market_cap_percentage.bind PctVal.btc
  let eth := root.market_cap_percentage.bind PctVal.eth
  let momentum := root.market_cap_change_percentage_24h_usd
  let updated := root.updated_at
  { totalMarketCapUsd := jsNumberOfOpt cap
    totalVolumeUsd := jsNumberOfOpt vol
    btcPercent := jsNumberOfOpt btc
    ethPercent := jsNumberOfOpt eth
    momentum24h := jsNumberOfOpt momentum
    updatedAt := jsNumberOfOpt updated }

/-- The guarded division `cap != null && vol != null && cap > 0 ? vol / cap
: null`. The identical expression occurs in both lib/derived
(`computeDerived`) and the inlined route derivation, so it is shared here. -/
def guardedVolumeRatio (cap vol : Option ℚ) : Option ℚ :=
  match cap, vol with
  | some c, some v => if 0 < c then some (v / c) else none
  | _, _ => none

/-- `movingAverage` from lib/derived (textually identical in the inlined
route derivation). `values.slice(-days)` takes the last `days` elements for
`0 < days` (clamping exactly as natural subtraction does when `days` exceeds
the length); `slice(-0)` is the whole array. -/
def movingAverage (prices : List (ℚ × ℚ)) (days : ℕ) : Option ℚ :=
  if prices.length < days then none
  else
    let values := prices.map Prod.snd
    let slice := if days = 0 then values else values.drop (values.length - days)
    some (slice.foldl (· + ·) 0 / (slice.length : ℚ))

/-- The `const last = prices[prices.length - 1]; last != null ? last[1] :
null` step: the price of the last sample (null on an empty array). Textually
identical in lib/derived and the inlined route derivation. -/
def lastPrice (prices : List (ℚ × ℚ)) : Option ℚ :=
  match prices.getLast? with
  | some last => some last.2
  | none => none

/-- The trend classification step shared (textually identical) by
lib/derived and the inlined route derivation: null unless both moving
averages are present. -/
def classifyTrend (ma50 ma200 : Option ℚ) : Option Trend :=
  match ma50, ma200 with
  | some a, some b =>
    if b < a then some Trend.golden_cross
    else if a < b then some Trend.death_cross
    else some Trend.neutral
  | _, _ => none

/-- `deriveFromBitcoinChart` from lib/derived. The guard
`!raw?.prices?.length` is: missing payload, missing `prices`, or an empty
`prices` array. -/
def deriveFromBitcoinChart (raw : Option BitcoinChartRaw) : FromBitcoinChart :=
  match raw.bind BitcoinChartRaw.prices with
  | none => { ma50 := none, ma200 := none, currentPrice := none, trend := none }
  | some prices =>
    if prices.isEmpty then
      { ma50 := none, ma200 := none, currentPrice := none, trend := none }
    else
      { ma50 := movingAverage prices 50
        ma200 := movingAverage prices 200
        currentPrice := lastPrice prices
        trend := classifyTrend (movingAverage prices 50) (movingAverage prices 200) }

/-- The local `avg` helper: map to the 24h change, keep the numeric values,
and average (null on an empty value list). Textually identical in lib/derived
and the inlined route derivation. -/
def avgChange24h (arr : List CoinMarketItem) : Option ℚ :=
  let vals := (arr.map CoinMarketItem.price_change_percentage_24h).filterMap id
  if 0 < vals.length then some (vals.foldl (· + ·) 0 / (vals.length : ℚ)) else none

/-- `deriveFromTopCoins` from lib/derived. -/
def deriveFromTopCoins (raw : Option (List CoinMarketItem)) : FromTopCoins :=
  match raw with
  | none =>
    { marketBreadthAbove50Percent := none
      avgPriceChange24hTop10 := none
      avgPriceChange24hNext90 := none }
  | some l =>
    if l.isEmpty then
      { marketBreadthAbove50Percent := none
        avgPriceChange24hTop10 := none
        avgPriceChange24hNext90 := none }
    else
      let with24h := l.filter (fun c => c.price_change_percentage_24h.isSome)
      let aboveZero := with24h.filter (fun c => decide (0 < c.price_change_percentage_24h.getD 0))
      let marketBreadthAbove50Percent : Option ℚ :=
        if 0 < with24h.length
        then some (((aboveZero.length : ℚ) / (with24h.length : ℚ)) * 100)
        else none
      let top10 := l.take 10
      let next90 := (l.drop 10).take 90
      { marketBreadthAbove50Percent := marketBreadthAbove50Percent
        avgPriceChange24hTop10 := avgChange24h top10
        avgPriceChange24hNext90 := avgChange24h next90 }

/-- The trending-coin label template: `Name (SYMBOL)` with the defaults of
lib/derived. -/
def trendLabel (c : TrendCoin) : String :=
  (c.item.bind TrendItem.name).getD ("Unknown") ++ " (" ++
    (c.item.bind TrendItem.symbol).getD ("?") ++ ")"

/-- Stable insertion into a descending-sorted list: the inserted (earlier)
element goes before later elements of equal key, matching the stable
JavaScript `sort` with comparator `(b.key ?? 0) - (a.key ?? 0)`. -/
def insertDescBy (key : CategoryItem → ℚ) (x : CategoryItem) :
    List CategoryItem → List CategoryItem
  | [] => [x]
  | y :: ys =>
    if key x < key y then y :: insertDescBy key x ys else x :: y :: ys

/-- Stable descending sort by key (insertion sort), modelling the stable
JavaScript `Array.prototype.sort` with a `b - a` comparator. -/
def sortDescBy (key : CategoryItem → ℚ) : List CategoryItem → List CategoryItem
  | [] => []
  | x :: xs => insertDescBy key x (sortDescBy key xs)

/-- `deriveDiscovery` from lib/derived. -/
def deriveDiscovery (trendingRaw : Option TrendingRaw)
    (categoriesRaw : Option (List CategoryItem)) : FromDiscovery :=
  let trendingCoins := (trendingRaw.bind TrendingRaw.coins).getD []
  let ranks : List ℚ := trendingCoins.map (fun c => (c.item.bind TrendItem.market_cap_rank).getD 0)
  let topTrendingRank : ℚ := ranks.head?.getD 0
  let topTrendingCoins := (trendingCoins.take 5).map trendLabel
  let topPerformingSectors :=
    ((sortDescBy (fun cat => cat.market_cap_change_24h.getD 0)
        ((categoriesRaw.getD []).filter (fun cat => cat.market_cap_change_24h.isSome))).take 3).map
      (fun cat =>
        { name := cat.name.getD ("Unknown")
          change24h := cat.market_cap_change_24h.getD 0 : Sector })
  { topTrendingCoins := topTrendingCoins
    topPerformingSectors := topPerformingSectors
    hypeVsMarketCapDivergence := decide (100 < topTrendingRank)
    retailMoonshotPresence := ranks.any (fun r => decide (500 < r)) }

/-- The `EXCHANGE_PULSE_STRESS_THRESHOLD_USD` constant. -/
def EXCHANGE_PULSE_STRESS_THRESHOLD_USD : ℚ := 50

/-- `deriveExchangePulse` from lib/derived. `Number(x ?? 0)` on the optional
quote strings; the zero check is JavaScript `===`, which is false for NaN. -/
def deriveExchangePulse (coinbaseRaw : Option CoinbaseSpotRaw)
    (krakenRaw : Option KrakenTickerRaw) (binanceRaw : Option BinancePriceRaw)
    (geckoBtcPrice : ℚ) : Option ExchangePulseResult :=
  let cbPrice :=
    match (coinbaseRaw.bind CoinbaseSpotRaw.data).bind CoinbaseData.amount with
    | some s => jsStrToNumber s
    | none => JsNum.val 0
  let krPrice :=
    match (((krakenRaw.bind KrakenTickerRaw.result).bind KrakenResult.XXBTZUSD).bind
        KrakenPair.c).bind List.head? with
    | some s => jsStrToNumber s
    | none => JsNum.val 0
  if cbPrice = JsNum.val 0 ∨ krPrice = JsNum.val 0 then none
  else
    let bnPriceRaw := binanceRaw.bind BinancePriceRaw.price
    let bnPrice :=
      match bnPriceRaw with
      | some s => if s = JsStr.empty then none else some (jsStrToNumber s)
      | none => none
    some
      { coinbasePrice := cbPrice
        krakenPrice := krPrice
        binancePrice := bnPrice
        priceDisparity := (cbPrice.sub krPrice).abs
        usExchangePremium := cbPrice.sub (JsNum.val geckoBtcPrice)
        isVolatile := (cbPrice.sub krPrice).abs.gtQ EXCHANGE_PULSE_STRESS_THRESHOLD_USD }

/-- A `GlobalRaw` with every field absent, i.e. the `{}` default of
`computeDerived(globalRaw ?? {})`. -/
def emptyGlobalRaw : GlobalRaw :=
  { data := none
    total_market_cap := none
    total_volume := none
    market_cap_percentage := none
    market_cap_change_percentage_24h_usd := none
    updated_at := none }

/-- `computeDerived` from lib/derived. `now` is the injected clock value for
`Math.floor(Date.now() / 1000)`. -/
def computeDerived (globalRaw : Option GlobalRaw)
    (topCoinsRaw : Option (List CoinMarketItem))
    (bitcoinChartRaw : Option BitcoinChartRaw)
    (trendingRaw : Option TrendingRaw)
    (categoriesRaw : Option (List CategoryItem))
    (coinbaseSpotRaw : Option CoinbaseSpotRaw)
    (krakenTickerRaw : Option KrakenTickerRaw)
    (binancePriceRaw : Option BinancePriceRaw) (now : ℕ) : DerivedMetrics :=
  let g := pickGlobal (globalRaw.getD emptyGlobalRaw)
  let volumeRatio := guardedVolumeRatio g.totalMarketCapUsd g.totalVolumeUsd
  let fromBitcoinChart := deriveFromBitcoinChart bitcoinChartRaw
  let geckoBtcPrice := fromBitcoinChart.currentPrice.getD 0
  let fromExchangePulse :=
    deriveExchangePulse coinbaseSpotRaw krakenTickerRaw binancePriceRaw geckoBtcPrice
  { fromGlobal :=
      { volumeRatio := volumeRatio
        btcDominancePercent := g.btcPercent
        ethDominancePercent := g.ethPercent
        marketMomentum24hPercent := g.momentum24h
        updatedAt := g.updatedAt }
    fromBitcoinChart := fromBitcoinChart
    fromTopCoins := deriveFromTopCoins topCoinsRaw
    fromDiscovery := deriveDiscovery trendingRaw categoriesRaw
    fromExchangePulse := fromExchangePulse
    computedAt := now }

-- The derivation inlined in the fetch route (api/fetch.ts), an independent
-- reimplementation persisted as the `derived` blob.

/-- The record returned by the route-inlined `computeDerived`: only three
sub-records plus the timestamp. -/
structure RouteDerived where
  fromGlobal : FromGlobal
  fromBitcoinChart : FromBitcoinChart
  fromTopCoins : FromTopCoins
  computedAt : ℕ
deriving DecidableEq

/-- The `computeDerived` inlined in api/fetch.ts. Differences from
lib/derived: the envelope fallback is `globalRaw?.data ?? globalRaw` (null
propagates), raw field values are used without a `Number` coercion, the
Bitcoin-chart block requires 200 samples before computing anything, and the
top-coins block runs directly on the (possibly empty) coerced array. -/
def computeDerivedRoute (globalRaw : Option GlobalRaw)
    (topCoinsRaw : Option (List CoinMarketItem))
    (bitcoinChartRaw : Option BitcoinChartRaw) (now : ℕ) : RouteDerived :=
  let root : Option GlobalFields := globalRaw.map GlobalRaw.root
  let cap := root.bind (fun r => r.total_market_cap.bind UsdVal.usd)
  let vol := root.bind (fun r => r.total_volume.bind UsdVal.usd)
  let btc := root.bind (fun r => r.market_cap_percentage.bind PctVal.btc)
  let eth := root.bind (fun r => r.market_cap_percentage.bind PctVal.eth)
  let momentum := root.bind GlobalFields.market_cap_change_percentage_24h_usd
  let updatedAt := root.bind GlobalFields.updated_at
  let volumeRatio := guardedVolumeRatio cap vol
  let fromBitcoinChart : FromBitcoinChart :=
    match bitcoinChartRaw.bind BitcoinChartRaw.prices with
    | some prices =>
      if 200 ≤ prices.length then
        { ma50 := movingAverage prices 50
          ma200 := movingAverage prices 200
          currentPrice := lastPrice prices
          trend := classifyTrend (movingAverage prices 50) (movingAverage prices 200) }
      else { ma50 := none, ma200 := none, currentPrice := none, trend := none }
    | none => { ma50 := none, ma200 := none, currentPrice := none, trend := none }
  let coins := topCoinsRaw.getD []
  let with24h := coins.filter (fun c => c.price_change_percentage_24h.isSome)
  let aboveZero := with24h.filter (fun c => decide (0 < c.price_change_percentage_24h.getD 0))
  let marketBreadthAbove50Percent : Option ℚ :=
    if 0 < with24h.length
    then some (((aboveZero.length : ℚ) / (with24h.length : ℚ)) * 100)
    else none
  let top10 := coins.take 10
  let next90 := (coins.drop 10).take 90
  { fromGlobal :=
      { volumeRatio := volumeRatio
        btcDominancePercent := btc
        ethDominancePercent := eth
        marketMomentum24hPercent := momentum
        updatedAt := updatedAt }
    fromBitcoinChart := fromBitcoinChart
    fromTopCoins :=
      { marketBreadthAbove50Percent := marketBreadthAbove50Percent
        avgPriceChange24hTop10 := avgChange24h top10
        avgPriceChange24hNext90 := avgChange24h next90 }
    computedAt := now }

-- Context serializer (the chat route buildContext).

/-- Floor of a non-negative rational, as a natural number. -/
def ratFloorNonneg (x : ℚ) : ℕ :=
  x.num.toNat / x.den

/-- JavaScript `toFixed`, idealized over exact rationals: round to `digits`
decimal places, half away from zero, and render with a fixed number of
decimals (and a leading minus sign for negative values). -/
def toFixed (q : ℚ) (digits : ℕ) : String :=
  let scaled : ℚ := (if q < 0 then -q else q) * (10 : ℚ) ^ digits + 1 / 2
  let m : ℕ := ratFloorNonneg scaled
  let base : ℕ := 10 ^ digits
  let sign : String := if q < 0 then "-" else ""
  if digits = 0 then sign ++ Nat.repr (m / base)
  else
    let fracStr := Nat.repr (m % base)
    let padded := String.mk (List.replicate (digits - fracStr.length) '0') ++ fracStr
    sign ++ Nat.repr (m / base) ++ "." ++ padded

/-- Template interpolation of a runtime number via `toFixed`; NaN renders as
the string NaN. -/
def toFixedJsNum (n : JsNum) (digits : ℕ) : String :=
  match n with
  | JsNum.val q => toFixed q digits
  | JsNum.nan => "NaN"

/-- Template interpolation of a raw number (for the headline totals).
Idealizes the JavaScript default float formatting: exact for integral
values; non-integral values rendered with six decimals. No verified claim
depends on this rendering. -/
def jsNumberToString (q : ℚ) : String :=
  if q.den = 1 then (if q < 0 then "-" else "") ++ Nat.repr q.num.natAbs
  else toFixed q 6

/-- Template interpolation of a boolean. -/
def jsBoolToString (b : Bool) : String :=
  if b then "true" else "false"

/-- `String(trend)` for a trend value. -/
def trendToString : Trend → String
  | Trend.golden_cross => "golden_cross"
  | Trend.death_cross => "death_cross"
  | Trend.neutral => "neutral"

/-- `Array.prototype.join` with a newline separator. -/
def joinNl : List String → String
  | [] => ""
  | [s] => s
  | s :: rest => s ++ "\n" ++ joinNl rest

/-- `Array.prototype.join` with a comma-space separator. -/
def joinComma : List String → String
  | [] => ""
  | [s] => s
  | s :: rest => s ++ ", " ++ joinComma rest

/-- A conditional push `if (x != null) parts.push(f(x))`, as the list of
lines it contributes. -/
def optionLine {α : Type} (o : Option α) (f : α → String) : List String :=
  match o with
  | some v => [f v]
  | none => []

/-- A conditional push `if (cond) parts.push(s)`, as the list of lines it
contributes. -/
def condLine (cond : Bool) (s : String) : List String :=
  if cond then [s] else []

/-- The `fromGlobal` lines pushed by buildContext. -/
def globalMetricLines (fg : FromGlobal) : List String :=
  optionLine fg.volumeRatio (fun v => "- Volume ratio (24h vol / market cap): " ++ toFixed v 6) ++
  optionLine fg.btcDominancePercent (fun v => "- BTC dominance: " ++ toFixed v 2 ++ "%") ++
  optionLine fg.ethDominancePercent (fun v => "- ETH dominance: " ++ toFixed v 2 ++ "%") ++
  optionLine fg.marketMomentum24hPercent
    (fun v => "- Market momentum (24h cap change): " ++ toFixed v 2 ++ "%")

/-- The `fromBitcoinChart` lines pushed by buildContext (no line for
`currentPrice`). -/
def chartLines (fc : FromBitcoinChart) : List String :=
  optionLine fc.ma50 (fun v => "- BTC 50-day MA: " ++ toFixed v 2) ++
  optionLine fc.ma200 (fun v => "- BTC 200-day MA: " ++ toFixed v 2) ++
  optionLine fc.trend (fun t => "- BTC trend: " ++ trendToString t)

/-- The `fromTopCoins` line pushed by buildContext (breadth only). -/
def topCoinsMetricLines (ft : FromTopCoins) : List String :=
  optionLine ft.marketBreadthAbove50Percent
    (fun v => "- Market breadth (% coins with positive 24h): " ++ toFixed v 1 ++ "%")

/-- The `fromDiscovery` lines pushed by buildContext. The two boolean lines
are always pushed: on a well-typed record the typeof-boolean guards hold. -/
def discoveryLines (fd : FromDiscovery) : List String :=
  condLine (!fd.topTrendingCoins.isEmpty)
    ("- Top trending coins: " ++ joinComma fd.topTrendingCoins) ++
  condLine (!fd.topPerformingSectors.isEmpty)
    ("- Top performing sectors (24h): " ++
      joinComma (fd.topPerformingSectors.map
        (fun s => s.name ++ " (" ++ toFixed s.change24h 2 ++ "%)"))) ++
  ["- Hype vs market cap divergence (top trend rank > 100): " ++
    jsBoolToString fd.hypeVsMarketCapDivergence] ++
  ["- Retail moonshot presence (any trending coin rank > 500): " ++
    jsBoolToString fd.retailMoonshotPresence]

/-- The `fromExchangePulse` lines pushed by buildContext; the sub-record is
skipped entirely when null. On a well-typed record the headline `?? 0`
defaults never fire and the `typeof` guards on the three detail lines hold
(NaN has typeof number). -/
def pulseLines (p : Option ExchangePulseResult) : List String :=
  match p with
  | none => []
  | some r =>
    ["- Exchange pulse (BTC): Coinbase " ++ toFixedJsNum r.coinbasePrice 2 ++
      " USD, Kraken " ++ toFixedJsNum r.krakenPrice 2 ++ " USD" ++
      (match r.binancePrice with
       | some b => ", Binance " ++ toFixedJsNum b 2 ++ " USDT"
       | none => "")] ++
    ["- Coinbase–Kraken price disparity: " ++ toFixedJsNum r.priceDisparity 2 ++ " USD"] ++
    ["- US exchange premium vs aggregator (Coinbase − Gecko): " ++
      toFixedJsNum r.usExchangePremium 2 ++ " USD"] ++
    ["- Exchange stress (disparity > 50 USD): " ++ jsBoolToString r.isVolatile]

/-- All lines pushed for a non-null derived record: the fixed header first,
then each sub-record section in order. -/
def derivedLines (d : DerivedMetrics) : List String :=
  "Derived metrics (from latest fetch):" ::
    (globalMetricLines d.fromGlobal ++ chartLines d.fromBitcoinChart ++
      topCoinsMetricLines d.fromTopCoins ++ discoveryLines d.fromDiscovery ++
      pulseLines d.fromExchangePulse)

/-- The headline total lines from the raw global snapshot (envelope-or-flat,
as in the serializer source). -/
def globalRawLines (globalRaw : Option GlobalRaw) : List String :=
  match globalRaw with
  | none => []
  | some gr =>
    optionLine (gr.root.total_market_cap.bind UsdVal.usd)
      (fun cap => "Total market cap (USD): " ++ jsNumberToString cap) ++
    optionLine (gr.root.total_volume.bind UsdVal.usd)
      (fun vol => "Total 24h volume (USD): " ++ jsNumberToString vol)

/-- The top-coins headline line (emitted only for a non-empty array). -/
def topCoinsRawLines (topCoinsRaw : Option (List CoinMarketItem)) : List String :=
  match topCoinsRaw with
  | none => []
  | some l =>
    if l.isEmpty then []
    else ["Top coins: " ++ Nat.repr l.length ++
      " coins (e.g. by market cap). Each has id, symbol, current_price, market_cap, total_volume, price_change_percentage_24h, etc."]

/-- `buildContext` from the chat route: push the section lines in order and
join with newlines, with a fixed fallback line when nothing was pushed. -/
def buildContext (derived : Option DerivedMetrics) (globalRaw : Option GlobalRaw)
    (topCoinsRaw : Option (List CoinMarketItem)) : String :=
  let parts :=
    (match derived with
     | some d => derivedLines d
     | none => []) ++
    globalRawLines globalRaw ++ topCoinsRawLines topCoinsRaw
  if parts.isEmpty then "No structured data available." else joinNl parts

-- Concrete fixtures used by witnesses and counterexamples.

/-- A 50-sample constant Bitcoin price series. -/
def series50 : List (ℚ × ℚ) := List.replicate 50 (0, 100)

/-- A 200-sample constant Bitcoin price series. -/
def series200 : List (ℚ × ℚ) := List.replicate 200 (0, 100)

/-- A 200-sample constant Bitcoin price series at 60000. -/
def chart60000 : List (ℚ × ℚ) := List.replicate 200 (0, 60000)

/-- A `DerivedMetrics` in which every sub-record is null or empty. -/
def emptyDerived : DerivedMetrics :=
  { fromGlobal :=
      { volumeRatio := none, btcDominancePercent := none, ethDominancePercent := none
        marketMomentum24hPercent := none, updatedAt := none }
    fromBitcoinChart := { ma50 := none, ma200 := none, currentPrice := none, trend := none }
    fromTopCoins :=
      { marketBreadthAbove50Percent := none, avgPriceChange24hTop10 := none
        avgPriceChange24hNext90 := none }
    fromDiscovery :=
      { topTrendingCoins := [], topPerformingSectors := []
        hypeVsMarketCapDivergence := false, retailMoonshotPresence := false }
    fromExchangePulse := none
    computedAt := 0 }

/-- A valid Coinbase spot quote at 60100. -/
def cbQuote : CoinbaseSpotRaw :=
  { data := some { amount := some (JsStr.num 60100), currency := none } }

/-- A valid Kraken ticker quote at 60090. -/
def krQuote : KrakenTickerRaw :=
  { result := some { XXBTZUSD := some { c := some [JsStr.num 60090] } } }

/-- A Coinbase spot quote whose `amount` string is not numeric, so that
`Number(amount)` is NaN. -/
def cbNaNQuote : CoinbaseSpotRaw :=
  { data := some { amount := some JsStr.nan, currency := none } }

/-- A valid Kraken ticker quote at 60000. -/
def krQuote60000 : KrakenTickerRaw :=
  { result := some { XXBTZUSD := some { c := some [JsStr.num 60000] } } }

/-- A flat global snapshot with a negative total market cap and volume 1. -/
def gNegGlobal : GlobalRaw :=
  { data := none
    total_market_cap := some { usd := some (-1) }
    total_volume := some { usd := some 1 }
    market_cap_percentage := none
    market_cap_change_percentage_24h_usd := none
    updated_at := none }

-- Spec-side helpers (phrased from the claims, for theorem statements).

/-- The last `n` entries of a list of values. -/
def lastN (n : ℕ) (xs : List ℚ) : List ℚ := xs.drop (xs.length - n)

/-- Arithmetic mean of a list of values. -/
def listMean (xs : List ℚ) : ℚ := xs.sum / (xs.length : ℚ)

/-- Arithmetic mean as an option: none on an empty value list. -/
def meanOfValues (vals : List ℚ) : Option ℚ :=
  if vals = [] then none else some (listMean vals)

-- Helper lemmas.

theorem jsNumberOfOpt_eq (o : Option ℚ) : jsNumberOfOpt o = o := by
  cases o <;> rfl

theorem foldl_add_eq_sum (xs : List ℚ) (a : ℚ) : xs.foldl (· + ·) a = a + xs.sum := by
  induction xs generalizing a with
  | nil => simp
  | cons x xs ih =>
    simp only [List.foldl_cons, ih, List.sum_cons]
    ring

theorem append_ne_empty (a b : String) (h : a ≠ "") : a ++ b ≠ "" := by
  intro hab
  apply h
  have h2 : a.data ++ b.data = ([] : List Char) := by
    rw [← String.data_append, hab]
  have ha := (List.append_eq_nil.mp h2).1
  cases a with
  | mk d =>
    cases ha
    rfl

theorem joinNl_ne_empty : ∀ (l : List String), l ≠ [] → (∀ s ∈ l, s ≠ "") → joinNl l ≠ ""
  | [], h, _ => absurd rfl h
  | [s], _, h2 => by
    show s ≠ ""
    exact h2 s (by simp)
  | s :: s2 :: rest, _, h2 => by
    show s ++ "\n" ++ joinNl (s2 :: rest) ≠ ""
    exact append_ne_empty _ _ (append_ne_empty _ _ (h2 s (by simp)))

theorem optionLine_ne_empty {α : Type} (o : Option α) (f : α → String)
    (hf : ∀ v, f v ≠ "") : ∀ s ∈ optionLine o f, s ≠ "" := by
  intro s hs
  cases o with
  | none => simp [optionLine] at hs
  | some v =>
    simp only [optionLine, List.mem_singleton] at hs
    subst hs
    exact hf v

theorem condLine_ne_empty (cond : Bool) (s : String) (h : s ≠ "") :
    ∀ x ∈ condLine cond s, x ≠ "" := by
  intro x hx
  cases cond with
  | false => simp [condLine] at hx
  | true =>
    simp only [condLine, if_pos, List.mem_singleton] at hx
    subst hx
    exact h

theorem globalMetricLines_ne_empty (fg : FromGlobal) :
    ∀ s ∈ globalMetricLines fg, s ≠ "" := by
  intro s hs
  simp only [globalMetricLines, List.mem_append] at hs
  rcases hs with ((h | h) | h) | h
  · exact optionLine_ne_empty _ _ (fun v => append_ne_empty _ _ (by decide)) s h
  · exact optionLine_ne_empty _ _
      (fun v => append_ne_empty _ _ (append_ne_empty _ _ (by decide))) s h
  · exact optionLine_ne_empty _ _
      (fun v => append_ne_empty _ _ (append_ne_empty _ _ (by decide))) s h
  · exact optionLine_ne_empty _ _
      (fun v => append_ne_empty _ _ (append_ne_empty _ _ (by decide))) s h

theorem chartLines_ne_empty (fc : FromBitcoinChart) : ∀ s ∈ chartLines fc, s ≠ "" := by
  intro s hs
  simp only [chartLines, List.mem_append] at hs
  rcases hs with (h | h) | h
  · exact optionLine_ne_empty _ _ (fun v => append_ne_empty _ _ (by decide)) s h
  · exact optionLine_ne_empty _ _ (fun v => append_ne_empty _ _ (by decide)) s h
  · exact optionLine_ne_empty _ _ (fun t => append_ne_empty _ _ (by decide)) s h

theorem topCoinsMetricLines_ne_empty (ft : FromTopCoins) :
    ∀ s ∈ topCoinsMetricLines ft, s ≠ "" := by
  intro s hs
  exact optionLine_ne_empty _ _
    (fun v => append_ne_empty _ _ (append_ne_empty _ _ (by decide))) s hs

theorem discoveryLines_ne_empty (fd : FromDiscovery) :
    ∀ s ∈ discoveryLines fd, s ≠ "" := by
  intro s hs
  simp only [discoveryLines, List.mem_append, List.mem_singleton] at hs
  rcases hs with ((h | h) | h) | h
  · exact condLine_ne_empty _ _ (append_ne_empty _ _ (by decide)) s h
  · exact condLine_ne_empty _ _ (append_ne_empty _ _ (by decide)) s h
  · subst h
    exact append_ne_empty _ _ (by decide)
  · subst h
    exact append_ne_empty _ _ (by decide)

theorem pulseLines_ne_empty (p : Option ExchangePulseResult) :
    ∀ s ∈ pulseLines p, s ≠ "" := by
  intro s hs
  cases p with
  | none => simp [pulseLines] at hs
  | some r =>
    simp only [pulseLines, List.cons_append, List.nil_append, List.mem_cons,
      List.mem_singleton, List.not_mem_nil, or_false] at hs
    rcases hs with h | h | h | h <;> subst h
    · exact append_ne_empty _ _ (append_ne_empty _ _
        (append_ne_empty _ _ (append_ne_empty _ _ (append_ne_empty _ _ (by decide)))))
    · exact append_ne_empty _ _ (append_ne_empty _ _ (by decide))
    · exact append_ne_empty _ _ (append_ne_empty _ _ (by decide))
    · exact append_ne_empty _ _ (by decide)

theorem derivedLines_ne_empty (d : DerivedMetrics) : ∀ s ∈ derivedLines d, s ≠ "" := by
  intro s hs
  simp only [derivedLines, List.mem_cons, List.mem_append] at hs
  rcases hs with h | (((h | h) | h) | h) | h
  · subst h
    decide
  · exact globalMetricLines_ne_empty _ s h
  · exact chartLines_ne_empty _ s h
  · exact topCoinsMetricLines_ne_empty _ s h
  · exact discoveryLines_ne_empty _ s h
  · exact pulseLines_ne_empty _ s h

theorem globalRawLines_ne_empty (g : Option GlobalRaw) :
    ∀ s ∈ globalRawLines g, s ≠ "" := by
  intro s hs
  cases g with
  | none => simp [globalRawLines] at hs
  | some gr =>
    simp only [globalRawLines, List.mem_append] at hs
    rcases hs with h | h
    · exact optionLine_ne_empty _ _ (fun v => append_ne_empty _ _ (by decide)) s h
    · exact optionLine_ne_empty _ _ (fun v => append_ne_empty _ _ (by decide)) s h

theorem topCoinsRawLines_ne_empty (t : Option (List CoinMarketItem)) :
    ∀ s ∈ topCoinsRawLines t, s ≠ "" := by
  intro s hs
  cases t with
  | none => simp [topCoinsRawLines] at hs
  | some l =>
    simp only [topCoinsRawLines] at hs
    by_cases he : l.isEmpty
    · simp [he] at hs
    · simp only [he, Bool.false_eq_true, if_false, List.mem_singleton] at hs
      subst hs
      exact append_ne_empty _ _ (append_ne_empty _ _ (by decide))

-- Claim theorems.

/-- Claim C1: for every combination of the eight raw inputs, each possibly
absent, computeDerived returns (totally, without any failure path) a
DerivedMetrics record with all five sub-record keys present, nullability
only at the leaves, and fromExchangePulse possibly null as a whole. -/
theorem claim_C1_computeDerived_total_shape (globalRaw : Option GlobalRaw)
    (topCoinsRaw : Option (List CoinMarketItem)) (bitcoinChartRaw : Option BitcoinChartRaw)
    (trendingRaw : Option TrendingRaw) (categoriesRaw : Option (List CategoryItem))
    (coinbaseSpotRaw : Option CoinbaseSpotRaw) (krakenTickerRaw : Option KrakenTickerRaw)
    (binancePriceRaw : Option BinancePriceRaw) (now : ℕ) :
    ∃ (fg : FromGlobal) (fbc : FromBitcoinChart) (ftc : FromTopCoins)
      (fd : FromDiscovery) (fep : Option ExchangePulseResult),
      computeDerived globalRaw topCoinsRaw bitcoinChartRaw trendingRaw categoriesRaw
          coinbaseSpotRaw krakenTickerRaw binancePriceRaw now =
        { fromGlobal := fg, fromBitcoinChart := fbc, fromTopCoins := ftc,
          fromDiscovery := fd, fromExchangePulse := fep, computedAt := now } :=
  ⟨_, _, _, _, _, rfl⟩

/-- Claim C5 (code bug evidence): a Coinbase quote whose amount string is not
numeric coerces to NaN; NaN is not strictly equal to 0, so the guard does not
fire and deriveExchangePulse returns a populated record (with NaN prices and
NaN disparity) instead of the null its own documentation and the spec
require for a non-numeric price. -/
theorem claim_C5_nan_quote_returns_record :
    deriveExchangePulse (some cbNaNQuote) (some krQuote60000) none 60000 =
      some
        { coinbasePrice := JsNum.nan
          krakenPrice := JsNum.val 60000
          binancePrice := none
          priceDisparity := JsNum.nan
          usExchangePremium := JsNum.nan
          isVolatile := false } := by
  rfl

/-- Claim C4 counterexample: with the flat shape carrying a present, nonzero
(negative) total market cap of -1 and volume 1, the claim predicts
volumeRatio = 1 / -1, but the code (which guards with cap > 0, not cap ≠ 0)
yields null. -/
theorem claim_C4_counterexample :
    gNegGlobal.total_market_cap = some { usd := some (-1) } ∧
    gNegGlobal.total_volume = some { usd := some 1 } ∧
    ((-1 : ℚ) ≠ 0) ∧
    (computeDerived (some gNegGlobal) none none none none none none none
        0).fromGlobal.volumeRatio ≠ some ((1 : ℚ) / (-1 : ℚ)) := by
  refine ⟨rfl, rfl, by norm_num, by decide⟩

/-- Claim C4 as amended: for every global snapshot (enveloped or flat),
volumeRatio is null when either operand is absent or when the total market
cap is not strictly positive (rather than only exactly zero), and equals
totalVolume / totalMarketCap otherwise (for any volume value including 0). -/
theorem claim_C4_volumeRatio_guard (g : GlobalRaw)
    (topCoinsRaw : Option (List CoinMarketItem)) (bitcoinChartRaw : Option BitcoinChartRaw)
    (trendingRaw : Option TrendingRaw) (categoriesRaw : Option (List CategoryItem))
    (coinbaseSpotRaw : Option CoinbaseSpotRaw) (krakenTickerRaw : Option KrakenTickerRaw)
    (binancePriceRaw : Option BinancePriceRaw) (now : ℕ) :
    (computeDerived (some g) topCoinsRaw bitcoinChartRaw trendingRaw categoriesRaw
        coinbaseSpotRaw krakenTickerRaw binancePriceRaw now).fromGlobal.volumeRatio =
      match g.root.total_market_cap.bind UsdVal.usd, g.root.total_volume.bind UsdVal.usd with
      | some cap, some vol => if 0 < cap then some (vol / cap) else none
      | some _, none => none
      | none, _ => none := by
  rcases hc : g.root.total_market_cap.bind UsdVal.usd with _ | cap <;>
    rcases hv : g.root.total_volume.bind UsdVal.usd with _ | vol <;>
      simp [computeDerived, pickGlobal, guardedVolumeRatio, jsNumberOfOpt_eq, hc, hv]

theorem movingAverage_eq_none_iff (prices : List (ℚ × ℚ)) (days : ℕ) :
    movingAverage prices days = none ↔ prices.length < days := by
  by_cases h : prices.length < days <;> simp [movingAverage, h]

theorem movingAverage_eq_mean (prices : List (ℚ × ℚ)) (days : ℕ) (h0 : days ≠ 0)
    (h : days ≤ prices.length) :
    movingAverage prices days = some (listMean (lastN days (prices.map Prod.snd))) := by
  simp only [movingAverage, listMean, lastN, h0, if_false, if_neg (Nat.not_lt.mpr h),
    foldl_add_eq_sum, zero_add]

theorem deriveFromBitcoinChart_cons (p : ℚ × ℚ) (ps : List (ℚ × ℚ))
    (mc tv : Option (List (ℚ × ℚ))) :
    deriveFromBitcoinChart
        (some { prices := some (p :: ps), market_caps := mc, total_volumes := tv }) =
      { ma50 := movingAverage (p :: ps) 50
        ma200 := movingAverage (p :: ps) 200
        currentPrice := lastPrice (p :: ps)
        trend := classifyTrend (movingAverage (p :: ps) 50)
          (movingAverage (p :: ps) 200) } := rfl

/-- Claim C2 counterexample: a 50-sample series has fewer than 200 samples,
yet the derivation returns a non-null ma50 and a non-null currentPrice. -/
theorem claim_C2_counterexample :
    series50.length < 200 ∧
    (deriveFromBitcoinChart
        (some { prices := some series50, market_caps := none,
                total_volumes := none })).ma50 ≠ none ∧
    (deriveFromBitcoinChart
        (some { prices := some series50, market_caps := none,
                total_volumes := none })).currentPrice ≠ none := by
  refine ⟨by decide, by decide, by decide⟩

/-- Claim C2 as amended: for every price series with fewer than 200 samples,
ma200 and trend are null; ma50 is null exactly when the series has fewer
than 50 samples, and currentPrice is null exactly when the series is empty
(so for lengths 50 to 199, ma50 and currentPrice are populated). -/
theorem claim_C2_below200 (prices : List (ℚ × ℚ)) (mc tv : Option (List (ℚ × ℚ)))
    (h : prices.length < 200) :
    (deriveFromBitcoinChart
        (some { prices := some prices, market_caps := mc, total_volumes := tv })).ma200 =
      none ∧
    (deriveFromBitcoinChart
        (some { prices := some prices, market_caps := mc, total_volumes := tv })).trend =
      none ∧
    ((deriveFromBitcoinChart
        (some { prices := some prices, market_caps := mc, total_volumes := tv })).ma50 =
      none ↔ prices.length < 50) ∧
    ((deriveFromBitcoinChart
        (some { prices := some prices, market_caps := mc,
                total_volumes := tv })).currentPrice = none ↔ prices = []) := by
  cases prices with
  | nil =>
    refine ⟨rfl, rfl, ?_, ?_⟩ <;> simp [deriveFromBitcoinChart]
  | cons p ps =>
    rw [deriveFromBitcoinChart_cons]
    have h200 : movingAverage (p :: ps) 200 = none :=
      (movingAverage_eq_none_iff _ _).mpr h
    refine ⟨h200, ?_, ?_, ?_⟩
    · rcases h50 : movingAverage (p :: ps) 50 with _ | a <;>
        simp [h50, h200, classifyTrend]
    · simpa using movingAverage_eq_none_iff (p :: ps) 50
    · rcases hL : (p :: ps).getLast? with _ | last
      · exact absurd (List.getLast?_eq_none_iff.mp hL) (List.cons_ne_nil p ps)
      · simp [lastPrice, hL]

/-- Claim C2 witness: the amended statement instantiated at the concrete
50-sample constant series. -/
theorem claim_C2_below200_witness :
    series50.length < 200 ∧
    ((deriveFromBitcoinChart
        (some { prices := some series50, market_caps := none,
                total_volumes := none })).ma200 = none ∧
    (deriveFromBitcoinChart
        (some { prices := some series50, market_caps := none,
                total_volumes := none })).trend = none ∧
    ((deriveFromBitcoinChart
        (some { prices := some series50, market_caps := none,
                total_volumes := none })).ma50 = none ↔ series50.length < 50) ∧
    ((deriveFromBitcoinChart
        (some { prices := some series50, market_caps := none,
                total_volumes := none })).currentPrice = none ↔ series50 = [])) :=
  ⟨by decide, claim_C2_below200 series50 none none (by decide)⟩

theorem classifyTrend_iff (a b : ℚ) :
    (classifyTrend (some a) (some b) = some Trend.golden_cross ↔ b < a) ∧
    (classifyTrend (some a) (some b) = some Trend.death_cross ↔ a < b) ∧
    (classifyTrend (some a) (some b) = some Trend.neutral ↔ a = b) := by
  have hct : classifyTrend (some a) (some b) =
      if b < a then some Trend.golden_cross
      else if a < b then some Trend.death_cross
      else some Trend.neutral := rfl
  rw [hct]
  rcases lt_trichotomy a b with hlt | heq | hgt
  · rw [if_neg (by exact not_lt.mpr hlt.le), if_pos hlt]
    exact ⟨by simp [lt_asymm hlt], by simp [hlt], by simp [hlt.ne]⟩
  · subst heq
    rw [if_neg (lt_irrefl a), if_neg (lt_irrefl a)]
    exact ⟨by simp [lt_irrefl], by simp [lt_irrefl], by simp⟩
  · rw [if_pos hgt]
    exact ⟨by simp [hgt], by simp [lt_asymm hgt], by simp [ne_of_gt hgt]⟩

/-- Claim C3: for every price series with at least 200 samples, ma50 and
ma200 are the arithmetic means of the last 50 and last 200 prices (both
windows ending at the last sample), currentPrice is the price of the last
sample, and trend is golden_cross / death_cross / neutral exactly when ma50
is greater than / less than / equal to ma200. -/
theorem claim_C3_above200 (prices : List (ℚ × ℚ)) (mc tv : Option (List (ℚ × ℚ)))
    (h : 200 ≤ prices.length) :
    (deriveFromBitcoinChart
        (some { prices := some prices, market_caps := mc, total_volumes := tv })).ma50 =
      some (listMean (lastN 50 (prices.map Prod.snd))) ∧
    (deriveFromBitcoinChart
        (some { prices := some prices, market_caps := mc, total_volumes := tv })).ma200 =
      some (listMean (lastN 200 (prices.map Prod.snd))) ∧
    (deriveFromBitcoinChart
        (some { prices := some prices, market_caps := mc,
                total_volumes := tv })).currentPrice =
      prices.getLast?.map Prod.snd ∧
    ((deriveFromBitcoinChart
        (some { prices := some prices, market_caps := mc, total_volumes := tv })).trend =
        some Trend.golden_cross ↔
      listMean (lastN 200 (prices.map Prod.snd)) < listMean (lastN 50 (prices.map Prod.snd))) ∧
    ((deriveFromBitcoinChart
        (some { prices := some prices, market_caps := mc, total_volumes := tv })).trend =
        some Trend.death_cross ↔
      listMean (lastN 50 (prices.map Prod.snd)) < listMean (lastN 200 (prices.map Prod.snd))) ∧
    ((deriveFromBitcoinChart
        (some { prices := some prices, market_caps := mc, total_volumes := tv })).trend =
        some Trend.neutral ↔
      listMean (lastN 50 (prices.map Prod.snd)) = listMean (lastN 200 (prices.map Prod.snd))) := by
  cases prices with
  | nil => simp at h
  | cons p ps =>
    have h50 := movingAverage_eq_mean (p :: ps) 50 (by omega) (by omega)
    have h200 := movingAverage_eq_mean (p :: ps) 200 (by omega) (by omega)
    rw [deriveFromBitcoinChart_cons]
    rw [h50, h200]
    obtain ⟨hg, hd, hn⟩ :=
      classifyTrend_iff (listMean (lastN 50 ((p :: ps).map Prod.snd)))
        (listMean (lastN 200 ((p :: ps).map Prod.snd)))
    refine ⟨rfl, rfl, ?_, hg, hd, hn⟩
    rcases hL : (p :: ps).getLast? with _ | last
    · exact absurd (List.getLast?_eq_none_iff.mp hL) (List.cons_ne_nil p ps)
    · simp [lastPrice, hL]

set_option maxRecDepth 100000 in
/-- Claim C3 witness: the statement instantiated at the concrete 200-sample
constant series, where both means are 100 and the trend is neutral. -/
theorem claim_C3_above200_witness :
    200 ≤ series200.length ∧
    ((deriveFromBitcoinChart
        (some { prices := some series200, market_caps := none,
                total_volumes := none })).ma50 =
      some (listMean (lastN 50 (series200.map Prod.snd))) ∧
    (deriveFromBitcoinChart
        (some { prices := some series200, market_caps := none,
                total_volumes := none })).ma200 =
      some (listMean (lastN 200 (series200.map Prod.snd))) ∧
    (deriveFromBitcoinChart
        (some { prices := some series200, market_caps := none,
                total_volumes := none })).currentPrice =
      series200.getLast?.map Prod.snd ∧
    ((deriveFromBitcoinChart
        (some { prices := some series200, market_caps := none,
                total_volumes := none })).trend = some Trend.golden_cross ↔
      listMean (lastN 200 (series200.map Prod.snd)) <
        listMean (lastN 50 (series200.map Prod.snd))) ∧
    ((deriveFromBitcoinChart
        (some { prices := some series200, market_caps := none,
                total_volumes := none })).trend = some Trend.death_cross ↔
      listMean (lastN 50 (series200.map Prod.snd)) <
        listMean (lastN 200 (series200.map Prod.snd))) ∧
    ((deriveFromBitcoinChart
        (some { prices := some series200, market_caps := none,
                total_volumes := none })).trend = some Trend.neutral ↔
      listMean (lastN 50 (series200.map Prod.snd)) =
        listMean (lastN 200 (series200.map Prod.snd)))) :=
  ⟨by decide, claim_C3_above200 series200 none none (by decide)⟩

/-- Claim C6: whenever the derivation returns a non-null exchange-pulse
record, priceDisparity is the absolute Coinbase-Kraken difference, isVolatile
holds exactly when the disparity exceeds 50, usExchangePremium is the
Coinbase price minus the Bitcoin-chart current price (or minus 0 when that is
unavailable), and replacing the Binance tertiary quote by any other value
changes neither priceDisparity nor isVolatile. -/
theorem claim_C6_pulse_math (globalRaw : Option GlobalRaw)
    (topCoinsRaw : Option (List CoinMarketItem)) (bitcoinChartRaw : Option BitcoinChartRaw)
    (trendingRaw : Option TrendingRaw) (categoriesRaw : Option (List CategoryItem))
    (coinbaseSpotRaw : Option CoinbaseSpotRaw) (krakenTickerRaw : Option KrakenTickerRaw)
    (binancePriceRaw binancePriceRaw2 : Option BinancePriceRaw) (now : ℕ)
    (r : ExchangePulseResult)
    (h : (computeDerived globalRaw topCoinsRaw bitcoinChartRaw trendingRaw categoriesRaw
        coinbaseSpotRaw krakenTickerRaw binancePriceRaw now).fromExchangePulse = some r) :
    r.priceDisparity = (r.coinbasePrice.sub r.krakenPrice).abs ∧
    (r.isVolatile = true ↔ r.priceDisparity.gtQ 50 = true) ∧
    r.usExchangePremium =
      r.coinbasePrice.sub
        (JsNum.val ((deriveFromBitcoinChart bitcoinChartRaw).currentPrice.getD 0)) ∧
    Option.map ExchangePulseResult.priceDisparity
        (computeDerived globalRaw topCoinsRaw bitcoinChartRaw trendingRaw categoriesRaw
          coinbaseSpotRaw krakenTickerRaw binancePriceRaw2 now).fromExchangePulse =
      some r.priceDisparity ∧
    Option.map ExchangePulseResult.isVolatile
        (computeDerived globalRaw topCoinsRaw bitcoinChartRaw trendingRaw categoriesRaw
          coinbaseSpotRaw krakenTickerRaw binancePriceRaw2 now).fromExchangePulse =
      some r.isVolatile := by
  simp only [computeDerived] at h ⊢
  simp only [deriveExchangePulse] at h ⊢
  split at h
  · simp at h
  · rename_i hcond
    rw [if_neg hcond]
    injection h with hrec
    subst hrec
    exact ⟨rfl, Iff.rfl, rfl, rfl, rfl⟩

/-- A Binance quote fixture at 60095 used to vary the tertiary input. -/
def bnQuote : BinancePriceRaw :=
  { symbol := some ("BTCUSDT"), price := some (JsStr.num 60095) }

/-- The exchange-pulse record produced by the C6 witness inputs. -/
def pulseWitnessRecord : ExchangePulseResult :=
  { coinbasePrice := JsNum.val 60100
    krakenPrice := JsNum.val 60090
    binancePrice := none
    priceDisparity := JsNum.val 10
    usExchangePremium := JsNum.val 100
    isVolatile := false }

set_option maxRecDepth 100000 in
/-- Claim C6 witness: the statement instantiated at valid Coinbase (60100)
and Kraken (60090) quotes with a 200-sample chart at 60000, and the Binance
input varied from absent to a concrete quote. -/
theorem claim_C6_pulse_math_witness :
    (computeDerived none none
        (some { prices := some chart60000, market_caps := none, total_volumes := none })
        none none (some cbQuote) (some krQuote) none 0).fromExchangePulse =
      some pulseWitnessRecord ∧
    (pulseWitnessRecord.priceDisparity =
      (pulseWitnessRecord.coinbasePrice.sub pulseWitnessRecord.krakenPrice).abs ∧
    (pulseWitnessRecord.isVolatile = true ↔
      pulseWitnessRecord.priceDisparity.gtQ 50 = true) ∧
    pulseWitnessRecord.usExchangePremium =
      pulseWitnessRecord.coinbasePrice.sub
        (JsNum.val ((deriveFromBitcoinChart
          (some { prices := some chart60000, market_caps := none,
                  total_volumes := none })).currentPrice.getD 0)) ∧
    Option.map ExchangePulseResult.priceDisparity
        (computeDerived none none
          (some { prices := some chart60000, market_caps := none, total_volumes := none })
          none none (some cbQuote) (some krQuote) (some bnQuote) 0).fromExchangePulse =
      some pulseWitnessRecord.priceDisparity ∧
    Option.map ExchangePulseResult.isVolatile
        (computeDerived none none
          (some { prices := some chart60000, market_caps := none, total_volumes := none })
          none none (some cbQuote) (some krQuote) (some bnQuote) 0).fromExchangePulse =
      some pulseWitnessRecord.isVolatile) :=
  ⟨by with_unfolding_all rfl,
    claim_C6_pulse_math none none
      (some { prices := some chart60000, market_caps := none, total_volumes := none })
      none none (some cbQuote) (some krQuote) none (some bnQuote) 0 pulseWitnessRecord
      (by with_unfolding_all rfl)⟩

theorem avgChange24h_eq (arr : List CoinMarketItem) :
    avgChange24h arr =
      meanOfValues (arr.filterMap CoinMarketItem.price_change_percentage_24h) := by
  unfold avgChange24h meanOfValues
  rw [List.filterMap_map]
  have hco : (some ∘ id ∘ CoinMarketItem.price_change_percentage_24h) =
      (some ∘ CoinMarketItem.price_change_percentage_24h) := rfl
  rw [show (id ∘ CoinMarketItem.price_change_percentage_24h) =
      CoinMarketItem.price_change_percentage_24h from rfl]
  by_cases hv : arr.filterMap CoinMarketItem.price_change_percentage_24h = []
  · simp [hv]
  · rw [if_pos (List.length_pos.mpr hv), if_neg hv, foldl_add_eq_sum, zero_add]
    rfl

/-- Claim C7: marketBreadthAbove50Percent is null exactly when no entry
carries a non-null 24h change, and otherwise equals 100 times the fraction
of entries-with-24h-data whose change is strictly positive; the two segment
averages are arithmetic means over positional slices (entries 1-10 and
11-100) of the original list, each null when its slice has no numeric
values. -/
theorem claim_C7_topCoins (raw : Option (List CoinMarketItem)) :
    ((deriveFromTopCoins raw).marketBreadthAbove50Percent =
      if ∀ c ∈ raw.getD [], c.price_change_percentage_24h = none then none
      else
        some (100 *
          (((((raw.getD []).filter (fun c => c.price_change_percentage_24h.isSome)).filter
              (fun c => decide (0 < c.price_change_percentage_24h.getD 0))).length : ℚ) /
            (((raw.getD []).filter
              (fun c => c.price_change_percentage_24h.isSome)).length : ℚ)))) ∧
    (deriveFromTopCoins raw).avgPriceChange24hTop10 =
      meanOfValues
        (((raw.getD []).take 10).filterMap CoinMarketItem.price_change_percentage_24h) ∧
    (deriveFromTopCoins raw).avgPriceChange24hNext90 =
      meanOfValues
        ((((raw.getD []).drop 10).take 90).filterMap
          CoinMarketItem.price_change_percentage_24h) := by
  rcases raw with _ | (_ | ⟨a, as⟩)
  · exact ⟨by simp [deriveFromTopCoins], rfl, rfl⟩
  · exact ⟨by simp [deriveFromTopCoins], rfl, rfl⟩
  · refine ⟨?_, avgChange24h_eq _, avgChange24h_eq _⟩
    show (if 0 < ((a :: as).filter (fun c => c.price_change_percentage_24h.isSome)).length
      then some
        (((((a :: as).filter (fun c => c.price_change_percentage_24h.isSome)).filter
            (fun c => decide (0 < c.price_change_percentage_24h.getD 0))).length : ℚ) /
          (((a :: as).filter
            (fun c => c.price_change_percentage_24h.isSome)).length : ℚ) * 100)
      else none) = _
    simp only [Option.getD_some]
    by_cases hall : ∀ c ∈ a :: as, c.price_change_percentage_24h = none
    · have hfil : (a :: as).filter (fun c => c.price_change_percentage_24h.isSome) = [] := by
        rw [List.filter_eq_nil_iff]
        intro c hc
        simp [hall c hc]
      rw [hfil, if_pos hall]
      simp
    · have hne : (a :: as).filter (fun c => c.price_change_percentage_24h.isSome) ≠ [] := by
        intro hf
        apply hall
        intro c hc
        rcases hp : c.price_change_percentage_24h with _ | v
        · rfl
        · exfalso
          have hmem : c ∈ (a :: as).filter (fun c => c.price_change_percentage_24h.isSome) :=
            List.mem_filter.mpr ⟨hc, by simp [hp]⟩
          rw [hf] at hmem
          exact absurd hmem (List.not_mem_nil c)
      rw [if_neg hall, if_pos (List.length_pos.mpr hne)]
      congr 1
      ring

/-- Claim C8: hypeVsMarketCapDivergence holds iff the first trending entry
has a market-cap rank above 100, retailMoonshotPresence holds iff some
trending entry has a rank above 500, topTrendingCoins is the Name (SYMBOL)
label list of at most the first five entries in input order, and on absent
trending and categories input all four fields are empty or false. -/
theorem claim_C8_discovery (tr : TrendingRaw) (cats : Option (List CategoryItem)) :
    ((deriveDiscovery (some tr) cats).hypeVsMarketCapDivergence = true ↔
      ∃ c, (tr.coins.getD []).head? = some c ∧
        ∃ r, c.item.bind TrendItem.market_cap_rank = some r ∧ 100 < r) ∧
    ((deriveDiscovery (some tr) cats).retailMoonshotPresence = true ↔
      ∃ c ∈ tr.coins.getD [],
        ∃ r, c.item.bind TrendItem.market_cap_rank = some r ∧ 500 < r) ∧
    (deriveDiscovery (some tr) cats).topTrendingCoins =
      ((tr.coins.getD []).take 5).map trendLabel ∧
    deriveDiscovery none none =
      { topTrendingCoins := []
        topPerformingSectors := []
        hypeVsMarketCapDivergence := false
        retailMoonshotPresence := false } := by
  refine ⟨?_, ?_, rfl, by with_unfolding_all rfl⟩
  · rcases hl : tr.coins.getD [] with _ | ⟨c, cs⟩
    · simp only [deriveDiscovery, Option.some_bind, hl]
      constructor
      · intro habs
        exfalso
        revert habs
        simp only [List.map_nil, List.head?_nil, Option.getD_none]
        intro habs
        have := of_decide_eq_true habs
        exact absurd this (by norm_num)
      · rintro ⟨c, hc, -⟩
        simp at hc
    · simp only [deriveDiscovery, Option.some_bind, hl, List.map_cons, List.head?_cons,
        Option.getD_some, decide_eq_true_eq]
      constructor
      · intro hgt
        refine ⟨c, rfl, ?_⟩
        rcases hr : c.item.bind TrendItem.market_cap_rank with _ | r
        · rw [hr] at hgt
          exact absurd (show (100 : ℚ) < 0 by simpa using hgt) (by norm_num)
        · exact ⟨r, rfl, by rw [hr] at hgt; simpa using hgt⟩
      · rintro ⟨c2, hc2, r, hr, hgt⟩
        obtain rfl : c = c2 := by simpa using hc2
        rw [hr]
        simpa using hgt
  · simp only [deriveDiscovery, Option.some_bind, List.any_eq_true, decide_eq_true_eq]
    constructor
    · rintro ⟨x, hx, hgt⟩
      obtain ⟨c, hc, rfl⟩ := List.mem_map.mp hx
      refine ⟨c, hc, ?_⟩
      rcases hr : c.item.bind TrendItem.market_cap_rank with _ | r
      · rw [hr] at hgt
        exact absurd (by simpa using hgt) (by norm_num : ¬(500 : ℚ) < 0)
      · exact ⟨r, rfl, by rw [hr] at hgt; simpa using hgt⟩
    · rintro ⟨c, hc, r, hr, hgt⟩
      refine ⟨(c.item.bind TrendItem.market_cap_rank).getD 0,
        List.mem_map.mpr ⟨c, hc, rfl⟩, ?_⟩
      rw [hr]
      simpa using hgt

/-- Claim C10: on every input triple (plus any values of the remaining
library-only inputs and clocks), the library computeDerived and the
route-inlined computeDerived produce equal fromGlobal and fromTopCoins
sub-records. -/
theorem claim_C10_route_agrees (globalRaw : Option GlobalRaw)
    (topCoinsRaw : Option (List CoinMarketItem)) (bitcoinChartRaw : Option BitcoinChartRaw)
    (trendingRaw : Option TrendingRaw) (categoriesRaw : Option (List CategoryItem))
    (coinbaseSpotRaw : Option CoinbaseSpotRaw) (krakenTickerRaw : Option KrakenTickerRaw)
    (binancePriceRaw : Option BinancePriceRaw) (now now2 : ℕ) :
    (computeDerived globalRaw topCoinsRaw bitcoinChartRaw trendingRaw categoriesRaw
        coinbaseSpotRaw krakenTickerRaw binancePriceRaw now).fromGlobal =
      (computeDerivedRoute globalRaw topCoinsRaw bitcoinChartRaw now2).fromGlobal ∧
    (computeDerived globalRaw topCoinsRaw bitcoinChartRaw trendingRaw categoriesRaw
        coinbaseSpotRaw krakenTickerRaw binancePriceRaw now).fromTopCoins =
      (computeDerivedRoute globalRaw topCoinsRaw bitcoinChartRaw now2).fromTopCoins := by
  constructor
  · cases globalRaw with
    | none => rfl
    | some gr =>
      simp [computeDerived, computeDerivedRoute, pickGlobal, jsNumberOfOpt_eq]
  · rcases topCoinsRaw with _ | (_ | ⟨a, as⟩) <;> rfl

/-- Claim C9 counterexample: for a DerivedMetrics in which every sub-record
is null or empty (and absent raw fragments), buildContext does not return the
fallback line; it still emits the derived-metrics header (and the two
always-printed boolean discovery lines). -/
theorem claim_C9_counterexample :
    buildContext (some emptyDerived) none none ≠ "No structured data available." := by
  decide

/-- Claim C9 as amended: buildContext never returns the empty string; for a
DerivedMetrics value in which every sub-record is null or empty (and absent
raw fragments) it returns exactly the derived-metrics header line followed by
the two always-emitted boolean discovery lines, not the fallback; the fixed
fallback line is returned when derived is absent and the raw fragments
contribute nothing. -/
theorem claim_C9_serializer :
    (∀ (derived : Option DerivedMetrics) (globalRaw : Option GlobalRaw)
        (topCoinsRaw : Option (List CoinMarketItem)),
      buildContext derived globalRaw topCoinsRaw ≠ "") ∧
    buildContext (some emptyDerived) none none =
      "Derived metrics (from latest fetch):\n- Hype vs market cap divergence (top trend rank > 100): false\n- Retail moonshot presence (any trending coin rank > 500): false" ∧
    buildContext none none none = "No structured data available." := by
  refine ⟨?_, by decide, by decide⟩
  intro d g t
  have hmem : ∀ s ∈ ((match d with
      | some dd => derivedLines dd
      | none => []) ++ globalRawLines g ++ topCoinsRawLines t), s ≠ "" := by
    intro s hs
    simp only [List.mem_append] at hs
    rcases hs with (h | h) | h
    · cases d with
      | none => simp at h
      | some dd => exact derivedLines_ne_empty dd s h
    · exact globalRawLines_ne_empty g s h
    · exact topCoinsRawLines_ne_empty t s h
  simp only [buildContext]
  split
  · decide
  · rename_i hne
    refine joinNl_ne_empty _ ?_ hmem
    intro hl
    rw [hl] at hne
    simp at hne

end CryptoDashboard
